import Mathlib

/-!
Shallow embedding of `KujiraAPIDataSource`
(`src/hummingbot/connector/gateway/clob_spot/data_sources/kujira/kujira_api_data_source.py`).

Each connector operation is embedded as a pure function taking
 - the connector state (`ConnState`: market cache, cached single market,
   trading pair, the tracker's active-order map), and
 - the Gateway responses the operation would receive, as explicit inputs
   (`Except String …`, where `.error msg` stands for a raised exception
   whose text is `msg`).

Each operation returns a `StepOut`: the ordered list of Gateway calls it
issued, its outcome (`Except PyErr result`, where `.error` stands for a
Python exception propagating out of the coroutine), and the new connector
state.  Decimal values are modelled as `Rat` (Python `Decimal` is exact
arbitrary-precision decimal arithmetic on these code paths).
-/

/-- Internal hummingbot order states (`hummingbot.core.data_type.in_flight_order.OrderState`),
restricted to the members this connector touches. -/
inductive OrderState
  | PENDING_CREATE
  | OPEN
  | PARTIALLY_FILLED
  | FILLED
  | CANCELED
  | FAILED
  deriving DecidableEq, Repr

/-- Modelled from the spec: the venue status vocabulary (`kujira_types.OrderStatus`,
a file not under src/): a fixed table of venue state strings. -/
inductive KujiraOrderStatus
  | OPEN
  | PARTIALLY_FILLED
  | FILLED
  | CANCELLED
  deriving DecidableEq, Repr

/-- Modelled from the spec: `OrderStatus.from_name` (kujira_types, not under src/) —
a fixed table from venue state strings to venue statuses; unmapped strings fail
fast (modelled as `none`, turned into a raised exception by `mapVenueState`). -/
def KujiraOrderStatus.from_name : String → Option KujiraOrderStatus
  | "OPEN" => some KujiraOrderStatus.OPEN
  | "PARTIALLY_FILLED" => some KujiraOrderStatus.PARTIALLY_FILLED
  | "FILLED" => some KujiraOrderStatus.FILLED
  | "CANCELLED" => some KujiraOrderStatus.CANCELLED
  | _ => none

/-- Modelled from the spec: `OrderStatus.to_hummingbot` (kujira_types, not under src/) —
the fixed table from venue statuses to the internal order-state enum. -/
def KujiraOrderStatus.to_hummingbot : KujiraOrderStatus → OrderState
  | KujiraOrderStatus.OPEN => OrderState.OPEN
  | KujiraOrderStatus.PARTIALLY_FILLED => OrderState.PARTIALLY_FILLED
  | KujiraOrderStatus.FILLED => OrderState.FILLED
  | KujiraOrderStatus.CANCELLED => OrderState.CANCELED

/-- A token descriptor inside a market record (only the field the code reads). -/
structure TokenInfo where
  symbol : String
  deriving DecidableEq, Repr

/-- The fee block of a market record. -/
structure MarketFees where
  maker : Rat
  taker : Rat
  serviceProvider : Rat
  deriving DecidableEq, Repr

/-- A cached market record (the fields the embedded operations read). -/
structure Market where
  name : String
  quoteToken : TokenInfo
  fees : MarketFees
  deriving DecidableEq, Repr

/-- `GatewayInFlightOrder`: the order object handed to the connector
(the fields the embedded operations read or write). -/
structure GatewayInFlightOrder where
  client_order_id : Option String
  exchange_order_id : Option String
  trading_pair : String
  trade_type : String
  order_type : String
  price : Rat
  amount : Rat
  current_state : OrderState
  deriving DecidableEq, Repr

/-- Connector state: `self._markets` (None / a possibly-empty mapping),
`self._market`, `self._trading_pair`, and the tracker's
`active_orders` map restricted to each order's `current_state`. -/
structure ConnState where
  tradingPair : String
  markets : Option (List (String × Market))
  market : Option Market
  activeOrders : List (String × OrderState)
  deriving DecidableEq, Repr

/-- A candidate order built inside `batch_order_create`
(an `in_flight_order.InFlightOrder` with `creation_timestamp=0`). -/
structure CandidateOrder where
  amount : Rat
  client_order_id : Option String
  creation_timestamp : Nat
  order_type : String
  trade_type : String
  trading_pair : String
  deriving DecidableEq, Repr

/-- An element of the `orders_to_create` list sent to the Gateway by
`batch_order_create`.  `moduleSentinel` stands for the module object
`in_flight_order` with which the Python code initializes the list
(`candidate_orders = [in_flight_order]`); it corresponds to no input order. -/
inductive CandidateEntry
  | moduleSentinel
  | candidate (c : CandidateOrder)
  deriving DecidableEq, Repr

/-- The Gateway calls an operation issues, with the request fields the
claims are about. -/
inductive GatewayCall
  | getClobMarkets
  | clobPlaceOrder (client_order_id : Option String)
  | clobBatchOrderModify (orders_to_create : List CandidateEntry) (orders_to_cancel : List String)
  | clobCancelOrder (exchange_order_id : String)
  | getClobOrderStatusUpdates (exchange_order_id : Option String)
  | getClobTicker
  | getBalances
  deriving DecidableEq, Repr

/-- Python exceptions propagating out of an embedded operation. -/
inductive PyErr
  | exc (msg : String)
  | runtimeError (msg : String)
  | keyError (key : String)
  | indexError
  | timeoutError
  | attributeError
  deriving DecidableEq, Repr

/-- Outcome of one embedded operation: Gateway calls issued (in order),
result or raised exception, and the new connector state. -/
structure StepOut (α : Type) where
  calls : List GatewayCall
  result : Except PyErr α
  state : ConnState

/-- Association-list lookup, modelling Python `dict` access on response maps. -/
def lookupKey {α : Type} (key : String) : List (String × α) → Option α
  | [] => none
  | (k, v) :: rest => if k = key then some v else lookupKey key rest

/-- Python `transaction_hash in (None, "")`. -/
def txHashEmpty : Option String → Bool
  | none => true
  | some h => h == ""

/-- Boolean substring test, modelling Python `needle in haystack`. -/
def substrB (needle haystack : String) : Bool :=
  haystack.toList.tails.any (fun t => needle.toList.isPrefixOf t)

/-- `_check_markets_initialized`: `self._markets is not None and bool(self._markets)`. -/
def check_markets_initialized : Option (List (String × Market)) → Bool
  | none => false
  | some l => !l.isEmpty

/-- Modelled from the spec: `generate_hash` from `kujira_helpers` (not under src/),
described by the spec as a deterministic hash of the order's attributes; modelled
as a concrete deterministic encoding of those attributes. -/
def generate_hash (o : GatewayInFlightOrder) : String :=
  "hash(" ++ o.trading_pair ++ "|" ++ o.trade_type ++ "|" ++ o.order_type ++ "|"
    ++ toString o.price.num ++ "/" ++ toString o.price.den ++ "|"
    ++ toString o.amount.num ++ "/" ++ toString o.amount.den ++ ")"

/-- The fixed all-zero placeholder transaction hash used by `cancel_order`. -/
def ZERO_TX_HASH : String :=
  "0000000000000000000000000000000000000000000000000000000000000000"

/-- The venue error text `cancel_order` recognizes as "order not found / already gone". -/
def ORDER_NOT_FOUND_MESSAGE : String :=
  "No orders with the specified information exist"

/-- Python `str(x)` of an optional string field (`None` prints as `"None"`). -/
def strOfOpt : Option String → String
  | none => "None"
  | some s => s

/-- The message of the exception `cancel_order` raises (inside its `try` block)
on an empty/missing transaction hash. -/
def invalidCancelHashMessage (client exch h : Option String) : String :=
  "Cancellation of order \"" ++ strOfOpt client ++ "\" / \"" ++ strOfOpt exch
    ++ "\" failed. Invalid transaction hash: \"" ++ strOfOpt h ++ "\"."

/-- `_update_markets`: fetches the market map, stores it in `self._markets`,
then sets `self._market = self._markets[self._trading_pair]` (a `KeyError` if
the trading pair is absent — note `self._markets` is already replaced by then). -/
def update_markets (st : ConnState) (mres : List (String × Market)) : StepOut Unit :=
  let st1 : ConnState := { st with markets := some mres }
  match lookupKey st.tradingPair mres with
  | some m =>
      { calls := [GatewayCall.getClobMarkets], result := Except.ok (),
        state := { st1 with market := some m } }
  | none =>
      { calls := [GatewayCall.getClobMarkets],
        result := Except.error (PyErr.keyError st.tradingPair), state := st1 }

/-- `self._check_markets_initialized() or await self._update_markets()` — the
population check each order operation runs before proceeding. -/
def ensureMarkets (st : ConnState) (mres : List (String × Market)) : StepOut Unit :=
  if check_markets_initialized st.markets then
    { calls := [], result := Except.ok (), state := st }
  else
    update_markets st mres

/-- The shared shape of every order/cancel operation: run the population
check (`self._check_markets_initialized() or await self._update_markets()`),
abort if the refresh raised, then run the operation body on the
possibly-refreshed state. -/
def withMarketsCheck {α : Type} (st : ConnState) (mres : List (String × Market))
    (body : ConnState → StepOut α) : StepOut α :=
  match ensureMarkets st mres with
  | ⟨c0, Except.error e, st1⟩ => ⟨c0, Except.error e, st1⟩
  | ⟨c0, Except.ok _, st1⟩ =>
    let r := body st1
    ⟨c0 ++ r.calls, r.result, r.state⟩

/-- Response of `clob_place_order`. -/
structure PlaceResponse where
  txHash : Option String
  id : String
  deriving DecidableEq, Repr

/-- `place_order`: market check, then gateway placement; a raised transport
exception is re-raised; an empty/missing transaction hash raises after the
`try` block; on success returns the venue id and the creation hash. -/
def place_order (st : ConnState) (mres : List (String × Market))
    (order : GatewayInFlightOrder) (resp : Except String PlaceResponse) :
    StepOut (String × String) :=
  withMarketsCheck st mres (fun st1 =>
    let calls := [GatewayCall.clobPlaceOrder order.client_order_id]
    match resp with
    | Except.error m => ⟨calls, Except.error (PyErr.exc m), st1⟩
    | Except.ok r =>
      if txHashEmpty r.txHash then
        ⟨calls, Except.error (PyErr.exc "Invalid transaction hash"), st1⟩
      else
        ⟨calls, Except.ok (r.id, r.txHash.getD ""), st1⟩)

/-- A `PlaceOrderResult` (the fields the claims are about). -/
structure PlaceOrderResult where
  client_order_id : Option String
  exchange_order_id : Option String
  trading_pair : String
  creation_transaction_hash : String
  deriving DecidableEq, Repr

/-- Response of `clob_batch_order_modify` for a create-only batch. -/
structure BatchCreateResponse where
  txHash : Option String
  ids : List String
  deriving DecidableEq, Repr

/-- The candidate order `batch_order_create` builds for one input order,
after `order_to_create.client_order_id = generate_hash(order_to_create)`. -/
def mkCandidateOrder (tp : String) (o : GatewayInFlightOrder) : CandidateOrder :=
  { amount := o.amount
    client_order_id := some (generate_hash o)
    creation_timestamp := 0
    order_type := o.order_type
    trade_type := o.trade_type
    trading_pair := tp }

/-- The `orders_to_create` list `batch_order_create` sends to the Gateway:
it is initialized with the `in_flight_order` module object
(`candidate_orders = [in_flight_order]`) and then one candidate per input. -/
def batchCreateCandidates (tp : String) (orders : List GatewayInFlightOrder) :
    List CandidateEntry :=
  CandidateEntry.moduleSentinel
    :: orders.map (fun o => CandidateEntry.candidate (mkCandidateOrder tp o))

/-- `batch_order_create`: market check; every input order's `client_order_id`
is overwritten with `generate_hash(order)`; a single batch create-only
transaction is sent; empty/missing hash raises `RuntimeError`; on success the
results pair the (rewritten) inputs positionally with `response["ids"]` via
`zip` (which truncates to the shorter list), all sharing the one hash. -/
def batch_order_create (st : ConnState) (mres : List (String × Market))
    (orders : List GatewayInFlightOrder) (resp : Except String BatchCreateResponse) :
    StepOut (List PlaceOrderResult) :=
  withMarketsCheck st mres (fun st1 =>
    let updated := orders.map
      (fun o => { o with client_order_id := some (generate_hash o) })
    let calls :=
      [GatewayCall.clobBatchOrderModify (batchCreateCandidates st.tradingPair orders) []]
    match resp with
    | Except.error m => ⟨calls, Except.error (PyErr.exc m), st1⟩
    | Except.ok r =>
      if txHashEmpty r.txHash then
        ⟨calls, Except.error (PyErr.runtimeError "Invalid transaction hash"), st1⟩
      else
        ⟨calls, Except.ok ((updated.zip r.ids).map (fun p =>
          { client_order_id := p.1.client_order_id
            exchange_order_id := some p.2
            trading_pair := p.1.trading_pair
            creation_transaction_hash := r.txHash.getD "" })), st1⟩)

/-- Outcome of `cancel_order`: the returned boolean, the
`cancelation_transaction_hash` entry of the returned metadata (`none` models
the empty `DotMap`), and the order's `current_state` after the call. -/
structure CancelOut where
  success : Bool
  cancelation_transaction_hash : Option String
  finalState : OrderState
  deriving DecidableEq, Repr

/-- `cancel_order`: untracked or already-CANCELED orders return
`(True, empty metadata)` with no Gateway call.  Otherwise: market check,
cancel request; inside the `try`, an empty/missing hash raises an exception
whose text is `invalidCancelHashMessage …`; the `except` handler converts any
exception whose text contains `ORDER_NOT_FOUND_MESSAGE` into success with the
all-zero placeholder hash and re-raises every other exception; both success
paths end with `order.current_state = CANCELED`. -/
def cancel_order (st : ConnState) (mres : List (String × Market))
    (order : GatewayInFlightOrder) (resp : Except String (Option String)) :
    StepOut CancelOut :=
  let tracked := match order.client_order_id with
    | none => none
    | some cid => lookupKey cid st.activeOrders
  match tracked with
  | some s =>
    if s = OrderState.CANCELED then
      { calls := [],
        result := Except.ok ⟨true, none, order.current_state⟩, state := st }
    else
      withMarketsCheck st mres (fun st1 =>
        match order.exchange_order_id with
        | none => ⟨[], Except.error PyErr.timeoutError, st1⟩
        | some eid =>
          let calls := [GatewayCall.clobCancelOrder eid]
          let inner : Except String String :=
            match resp with
            | Except.error m => Except.error m
            | Except.ok th =>
              if txHashEmpty th then
                Except.error
                  (invalidCancelHashMessage order.client_order_id order.exchange_order_id th)
              else Except.ok (th.getD "")
          match inner with
          | Except.ok h =>
            ⟨calls, Except.ok ⟨true, some h, OrderState.CANCELED⟩, st1⟩
          | Except.error m =>
            if substrB ORDER_NOT_FOUND_MESSAGE m then
              ⟨calls, Except.ok ⟨true, some ZERO_TX_HASH, OrderState.CANCELED⟩, st1⟩
            else
              ⟨calls, Except.error (PyErr.exc m), st1⟩)
  | none =>
      { calls := [],
        result := Except.ok ⟨true, none, order.current_state⟩, state := st }

/-- A `CancelOrderResult` (the fields the claims are about). -/
structure CancelOrderResult where
  client_order_id : Option String
  trading_pair : String
  cancelation_transaction_hash : Option String
  deriving DecidableEq, Repr

/-- `batch_order_cancel`: market check; orders whose venue-id resolution timed
out (modelled: no `exchange_order_id`) are excluded from the batch; one
cancel-only batch transaction; empty/missing hash raises `RuntimeError`;
on success one result per originally requested order, sharing the hash. -/
def batch_order_cancel (st : ConnState) (mres : List (String × Market))
    (orders : List GatewayInFlightOrder) (resp : Except String (Option String)) :
    StepOut (List CancelOrderResult) :=
  withMarketsCheck st mres (fun st1 =>
    let ids := orders.filterMap (fun o => o.exchange_order_id)
    let calls := [GatewayCall.clobBatchOrderModify [] ids]
    match resp with
    | Except.error m => ⟨calls, Except.error (PyErr.exc m), st1⟩
    | Except.ok th =>
      if txHashEmpty th then
        ⟨calls, Except.error (PyErr.runtimeError "Invalid transaction hash"), st1⟩
      else
        ⟨calls, Except.ok (orders.map (fun o =>
          { client_order_id := o.client_order_id
            trading_pair := o.trading_pair
            cancelation_transaction_hash := th })), st1⟩)

/-- `cancel_all_orders`: market check; polls the venue for this account's open
orders (`statusResp` carries their venue ids); then ALWAYS submits one
cancel-only batch carrying those ids (even when the list is empty); after the
`try`, an empty/missing hash raises `RuntimeError` only when the id list is
non-empty; on success returns the (always empty) result list. -/
def cancel_all_orders (st : ConnState) (mres : List (String × Market))
    (statusResp : Except String (List String))
    (batchResp : Except String (Option String)) :
    StepOut (List Unit) :=
  withMarketsCheck st mres (fun st1 =>
    match statusResp with
    | Except.error m =>
      ⟨[GatewayCall.getClobOrderStatusUpdates none],
        Except.error (PyErr.exc m), st1⟩
    | Except.ok ids =>
      let calls := [GatewayCall.getClobOrderStatusUpdates none,
        GatewayCall.clobBatchOrderModify [] ids]
      match batchResp with
      | Except.error m => ⟨calls, Except.error (PyErr.exc m), st1⟩
      | Except.ok th =>
        if txHashEmpty th && !ids.isEmpty then
          ⟨calls, Except.error (PyErr.runtimeError "Invalid transaction hash"), st1⟩
        else
          ⟨calls, Except.ok [], st1⟩)

/-- `get_last_traded_price`: queries the ticker and reads
`response.markets[self._trading_pair].price`.  It performs NO market-cache
check. -/
def get_last_traded_price (st : ConnState) (tresp : List (String × Rat)) :
    StepOut Rat :=
  { calls := [GatewayCall.getClobTicker]
    result := match lookupKey st.tradingPair tresp with
      | some p => Except.ok p
      | none => Except.error (PyErr.keyError st.tradingPair)
    state := st }

/-- `get_account_balances`: queries balances and mirrors each balance into
`total_balance` and `available_balance`.  It performs NO market-cache check. -/
def get_account_balances (st : ConnState) (bresp : List (String × Rat)) :
    StepOut (List (String × Rat × Rat)) :=
  { calls := [GatewayCall.getBalances]
    result := Except.ok (bresp.map (fun p => (p.1, p.2, p.2)))
    state := st }

/-- One element of a `get_clob_order_status_updates` response's `orders` list:
`none` models a present-but-falsy record (e.g. an empty object); `some r`
models a truthy record with venue state string `r.state`. -/
structure VenueOrder where
  state : String
  deriving DecidableEq, Repr

/-- An `OrderUpdate` (the fields the claims are about). -/
structure OrderUpdate where
  trading_pair : String
  new_state : OrderState
  client_order_id : Option String
  exchange_order_id : Option String
  deriving DecidableEq, Repr

/-- Venue state string → internal state, raising on an unmapped string
(`KujiraOrderStatus.to_hummingbot(KujiraOrderStatus.from_name(order.state))`). -/
def mapVenueState (s : String) : Except PyErr OrderState :=
  match KujiraOrderStatus.from_name s with
  | some k => Except.ok (KujiraOrderStatus.to_hummingbot k)
  | none => Except.error (PyErr.exc ("Unrecognized order status " ++ s))

/-- The `OrderUpdate` built from an order's current local state. -/
def noUpdateFor (o : GatewayInFlightOrder) : OrderUpdate :=
  { trading_pair := o.trading_pair
    new_state := o.current_state
    client_order_id := o.client_order_id
    exchange_order_id := o.exchange_order_id }

/-- `get_order_status_update`: untracked or already-CANCELED orders get an
update built from local state, with no Gateway call.  Otherwise the venue is
polled and `orders[0]` is read — an EMPTY `orders` list raises `IndexError`;
a present-but-falsy first record falls back to the order's current local
state; a truthy record goes through the status table. -/
def get_order_status_update (st : ConnState) (order : GatewayInFlightOrder)
    (statusResp : Except String (List (Option VenueOrder))) :
    StepOut OrderUpdate :=
  let tracked := match order.client_order_id with
    | none => none
    | some cid => lookupKey cid st.activeOrders
  match tracked with
  | some s =>
    if s = OrderState.CANCELED then
      ⟨[], Except.ok (noUpdateFor order), st⟩
    else
      match order.exchange_order_id with
      | none => ⟨[], Except.error PyErr.timeoutError, st⟩
      | some eid =>
        let calls := [GatewayCall.getClobOrderStatusUpdates (some eid)]
        match statusResp with
        | Except.error m => ⟨calls, Except.error (PyErr.exc m), st⟩
        | Except.ok [] => ⟨calls, Except.error PyErr.indexError, st⟩
        | Except.ok (r0 :: _) =>
          match (match r0 with
                 | some r => mapVenueState r.state
                 | none => Except.ok order.current_state : Except PyErr OrderState) with
          | Except.error e => ⟨calls, Except.error e, st⟩
          | Except.ok ns =>
            ⟨calls, Except.ok { noUpdateFor order with new_state := ns }, st⟩
  | none => ⟨[], Except.ok (noUpdateFor order), st⟩

/-- A `TradeUpdate` (the fields the claims are about; the fee's single flat
component is `(fee_amount, fee_token)`). -/
structure TradeUpdate where
  trade_id : String
  client_order_id : Option String
  exchange_order_id : Option String
  trading_pair : String
  fill_price : Rat
  fill_base_amount : Rat
  fill_quote_amount : Rat
  fee_amount : Rat
  fee_token : String
  deriving DecidableEq, Repr

/-- `get_all_order_fills`: short-circuits to `[]` without a venue id, when
untracked, or when already CANCELED.  Otherwise polls the venue and reads
`orders[0]` (EMPTY list raises `IndexError`); exactly when a truthy record
maps to `FILLED` it synthesizes one full fill from the order's price/size and
the cached market's raw taker fee (`self._market.fees.taker`,
`self._market.quoteToken.symbol`); otherwise returns `[]`. -/
def get_all_order_fills (st : ConnState) (order : GatewayInFlightOrder)
    (statusResp : Except String (List (Option VenueOrder))) (now : Nat) :
    StepOut (List TradeUpdate) :=
  match order.exchange_order_id with
  | none => ⟨[], Except.ok [], st⟩
  | some eid =>
    let tracked := match order.client_order_id with
      | none => none
      | some cid => lookupKey cid st.activeOrders
    match tracked with
    | none => ⟨[], Except.ok [], st⟩
    | some s =>
      if s = OrderState.CANCELED then
        ⟨[], Except.ok [], st⟩
      else
        let calls := [GatewayCall.getClobOrderStatusUpdates (some eid)]
        match statusResp with
        | Except.error m => ⟨calls, Except.error (PyErr.exc m), st⟩
        | Except.ok [] => ⟨calls, Except.error PyErr.indexError, st⟩
        | Except.ok (r0 :: _) =>
          match (match r0 with
                 | some r => mapVenueState r.state
                 | none => Except.ok order.current_state : Except PyErr OrderState) with
          | Except.error e => ⟨calls, Except.error e, st⟩
          | Except.ok ns =>
            if r0.isSome ∧ ns = OrderState.FILLED then
              match st.market with
              | none => ⟨calls, Except.error PyErr.attributeError, st⟩
              | some m =>
                ⟨calls, Except.ok
                  [{ trade_id := toString now
                     client_order_id := order.client_order_id
                     exchange_order_id := some eid
                     trading_pair := order.trading_pair
                     fill_price := order.price
                     fill_base_amount := order.amount
                     fill_quote_amount := order.price * order.amount
                     fee_amount := m.fees.taker
                     fee_token := m.quoteToken.symbol }], st⟩
            else
              ⟨calls, Except.ok [], st⟩

/-! ### Concrete fixtures used by witnesses and counterexamples -/

/-- The KUJI/USK market of the repository's test fixtures
(maker 0.075, taker 0.15, service provider 0). -/
def kujiMarket : Market :=
  { name := "KUJI/USK"
    quoteToken := { symbol := "USK" }
    fees := { maker := 3 / 40, taker := 3 / 20, serviceProvider := 0 } }

/-- A populated connector state with one tracked OPEN order `"c1"`. -/
def trackedState : ConnState :=
  { tradingPair := "KUJI-USK"
    markets := some [("KUJI-USK", kujiMarket)]
    market := some kujiMarket
    activeOrders := [("c1", OrderState.OPEN)] }

/-- A populated connector state with no tracked orders. -/
def populatedState : ConnState :=
  { trackedState with activeOrders := [] }

/-- A connector state whose market cache was never populated, with one
tracked OPEN order `"c1"`. -/
def emptyCacheState : ConnState :=
  { trackedState with markets := none, market := none }

/-- An order whose client id is tracked by no state used in the witnesses. -/
def untrackedOrder : GatewayInFlightOrder :=
  { client_order_id := some "cX"
    exchange_order_id := some "9"
    trading_pair := "KUJI-USK"
    trade_type := "BUY"
    order_type := "LIMIT"
    price := 2
    amount := 3
    current_state := OrderState.OPEN }

/-- A state tracking `"cX"` already in CANCELED state. -/
def canceledTrackerState : ConnState :=
  { trackedState with activeOrders := [("cX", OrderState.CANCELED)] }

/-- A tracked in-flight order matching `trackedState`. -/
def sampleOrder : GatewayInFlightOrder :=
  { client_order_id := some "c1"
    exchange_order_id := some "1"
    trading_pair := "KUJI-USK"
    trade_type := "BUY"
    order_type := "LIMIT"
    price := 2
    amount := 3
    current_state := OrderState.OPEN }

/-! ### Shared lemmas -/

/-- When the market cache is already populated, the population check is a no-op. -/
theorem ensureMarkets_initialized (st : ConnState) (mres : List (String × Market))
    (h : check_markets_initialized st.markets = true) :
    ensureMarkets st mres = ⟨[], Except.ok (), st⟩ := by
  simp [ensureMarkets, h]

/-- When the market cache is not populated, the population check issues the
blocking market refresh first and replaces the cached mapping. -/
theorem ensureMarkets_not_initialized (st : ConnState) (mres : List (String × Market))
    (h : check_markets_initialized st.markets = false) :
    (ensureMarkets st mres).calls = [GatewayCall.getClobMarkets]
    ∧ (ensureMarkets st mres).state.markets = some mres := by
  simp only [ensureMarkets, h, Bool.false_eq_true, if_false]
  unfold update_markets
  cases hl : lookupKey st.tradingPair mres <;> simp [hl]

/-! ### Claim C8 -/

/-- Claim C8: for every call to `batch_order_create` with `n` input orders
(with the market cache populated), the `orders_to_create` list sent to the
Gateway has `n + 1` elements: its first element is the constant module
sentinel (the list is initialized non-empty with the `in_flight_order`
module object), followed by one candidate order built from each input. -/
theorem C8_batch_create_request_has_sentinel_head
    (st : ConnState) (mres : List (String × Market))
    (orders : List GatewayInFlightOrder) (resp : Except String BatchCreateResponse)
    (hchk : check_markets_initialized st.markets = true) :
    (batch_order_create st mres orders resp).calls =
      [GatewayCall.clobBatchOrderModify (batchCreateCandidates st.tradingPair orders) []]
    ∧ (batchCreateCandidates st.tradingPair orders).length = orders.length + 1
    ∧ (batchCreateCandidates st.tradingPair orders).head? = some CandidateEntry.moduleSentinel
    ∧ (batchCreateCandidates st.tradingPair orders).tail =
        orders.map (fun o => CandidateEntry.candidate (mkCandidateOrder st.tradingPair o)) := by
  refine ⟨?_, by simp [batchCreateCandidates], by simp [batchCreateCandidates],
    by simp [batchCreateCandidates]⟩
  simp only [batch_order_create, withMarketsCheck, ensureMarkets_initialized st mres hchk]
  rcases resp with m | r
  · simp
  · by_cases hh : txHashEmpty r.txHash = true <;> simp [hh]

/-- Claim C8 witness: the property evaluated on a concrete populated state,
one input order and a concrete Gateway response. -/
theorem C8_batch_create_request_has_sentinel_head_witness :
    check_markets_initialized populatedState.markets = true
    ∧ ((batch_order_create populatedState [] [sampleOrder]
          (Except.ok ⟨some "h", ["1"]⟩)).calls =
        [GatewayCall.clobBatchOrderModify
          (batchCreateCandidates populatedState.tradingPair [sampleOrder]) []]
      ∧ (batchCreateCandidates populatedState.tradingPair [sampleOrder]).length = 2
      ∧ (batchCreateCandidates populatedState.tradingPair [sampleOrder]).head? =
          some CandidateEntry.moduleSentinel
      ∧ (batchCreateCandidates populatedState.tradingPair [sampleOrder]).tail =
          [sampleOrder].map
            (fun o => CandidateEntry.candidate (mkCandidateOrder populatedState.tradingPair o))) :=
  ⟨rfl, C8_batch_create_request_has_sentinel_head populatedState [] [sampleOrder]
    (Except.ok ⟨some "h", ["1"]⟩) rfl⟩

/-! ### Claim C9 -/

/-- Claim C9: `cancel_order` on an order whose client id is not present in
the tracker's active orders returns success (`True`) with empty metadata and
performs no Gateway call, exactly like an order whose tracked state is
already CANCELED. -/
theorem C9_cancel_untracked_is_noop_success
    (st st2 : ConnState) (mres : List (String × Market))
    (order : GatewayInFlightOrder) (resp : Except String (Option String)) (cid : String)
    (hcid : order.client_order_id = some cid)
    (hun : lookupKey cid st.activeOrders = none)
    (hcanc : lookupKey cid st2.activeOrders = some OrderState.CANCELED) :
    cancel_order st mres order resp =
      ⟨[], Except.ok ⟨true, none, order.current_state⟩, st⟩
    ∧ cancel_order st2 mres order resp =
      ⟨[], Except.ok ⟨true, none, order.current_state⟩, st2⟩ := by
  constructor
  · simp only [cancel_order, hcid, hun]
  · simp only [cancel_order, hcid, hcanc]
    simp

/-- Claim C9 witness: a concrete untracked order and a concrete order tracked
in CANCELED state, both with a Gateway response available that is never used. -/
theorem C9_cancel_untracked_is_noop_success_witness :
    untrackedOrder.client_order_id = some "cX"
    ∧ lookupKey "cX" trackedState.activeOrders = none
    ∧ lookupKey "cX" canceledTrackerState.activeOrders = some OrderState.CANCELED
    ∧ (cancel_order trackedState [] untrackedOrder (Except.ok (some "h")) =
        ⟨[], Except.ok ⟨true, none, untrackedOrder.current_state⟩, trackedState⟩
      ∧ cancel_order canceledTrackerState [] untrackedOrder (Except.ok (some "h")) =
        ⟨[], Except.ok ⟨true, none, untrackedOrder.current_state⟩, canceledTrackerState⟩) :=
  ⟨rfl, rfl, rfl, C9_cancel_untracked_is_noop_success trackedState canceledTrackerState []
    untrackedOrder (Except.ok (some "h")) "cX" rfl rfl rfl⟩

/-! ### Claim C10 -/

/-- Claim C10: every successful `cancel_all_orders` call returns an empty
list of cancellation results, regardless of how many open orders were found
and cancelled. -/
theorem C10_cancel_all_success_returns_empty
    (st : ConnState) (mres : List (String × Market))
    (sResp : Except String (List String)) (bResp : Except String (Option String))
    (l : List Unit)
    (h : (cancel_all_orders st mres sResp bResp).result = Except.ok l) :
    l = [] := by
  rcases hE : ensureMarkets st mres with ⟨c0, r0, st1⟩
  rcases r0 with e | u
  · simp only [cancel_all_orders, withMarketsCheck, hE] at h
    simp at h
  · rcases sResp with m | ids
    · simp only [cancel_all_orders, withMarketsCheck, hE] at h
      simp at h
    · rcases bResp with m | th
      · simp only [cancel_all_orders, withMarketsCheck, hE] at h
        simp at h
      · simp only [cancel_all_orders, withMarketsCheck, hE] at h
        split at h <;> simp_all

/-- Claim C10 witness: a successful concrete run that found one open order
still returns the empty result list. -/
theorem C10_cancel_all_success_returns_empty_witness :
    (cancel_all_orders populatedState [] (Except.ok ["1"]) (Except.ok (some "h"))).result
      = Except.ok ([] : List Unit)
    ∧ ([] : List Unit) = [] :=
  ⟨rfl, C10_cancel_all_success_returns_empty populatedState [] (Except.ok ["1"])
    (Except.ok (some "h")) [] rfl⟩

/-- With a populated market cache, the precheck wrapper is exactly the body. -/
theorem withMarketsCheck_initialized {α : Type} (st : ConnState)
    (mres : List (String × Market)) (body : ConnState → StepOut α)
    (h : check_markets_initialized st.markets = true) :
    withMarketsCheck st mres body = body st := by
  simp [withMarketsCheck, ensureMarkets_initialized st mres h]

/-- With an unpopulated market cache, the precheck wrapper issues the blocking
market refresh as its first Gateway call and stores the fetched mapping,
provided the body leaves the state unchanged (every embedded body does). -/
theorem withMarketsCheck_not_initialized {α : Type} (st : ConnState)
    (mres : List (String × Market)) (body : ConnState → StepOut α)
    (h : check_markets_initialized st.markets = false)
    (hb : ∀ s, (body s).state = s) :
    (withMarketsCheck st mres body).calls.head? = some GatewayCall.getClobMarkets
    ∧ (withMarketsCheck st mres body).state.markets = some mres := by
  simp only [withMarketsCheck, ensureMarkets, h, Bool.false_eq_true, if_false,
    update_markets]
  cases hl : lookupKey st.tradingPair mres <;> simp [hl, hb]

/-! ### Claim C1 -/

/-- Claim C1 counterexample: `get_last_traded_price` run with an unpopulated
market cache issues only the ticker query — no market refresh — and leaves
the cache unpopulated, refuting the claim that every pricing or balance
operation first checks the cache and blocks on a refresh when it is empty. -/
theorem C1_pricing_skips_market_check_counterexample :
    check_markets_initialized emptyCacheState.markets = false
    ∧ (get_last_traded_price emptyCacheState [("KUJI-USK", (1 : Rat))]).calls
        = [GatewayCall.getClobTicker]
    ∧ (get_last_traded_price emptyCacheState [("KUJI-USK", (1 : Rat))]).state
        = emptyCacheState :=
  ⟨rfl, rfl, rfl⟩

/-- Claim C1 (amended): the order and cancellation operations (`place_order`,
`batch_order_create`, `cancel_order` when it proceeds on a tracked
not-yet-CANCELED order, `batch_order_cancel`, `cancel_all_orders`) first
check that the market cache is populated and, if it is not, perform a
blocking refresh before continuing (their first Gateway call is the market
fetch and the refreshed mapping is stored); the pricing and balance
operations (`get_last_traded_price`, `get_account_balances`) perform no
market-cache check. -/
theorem C1_market_check_gates_order_ops
    (st : ConnState) (mres : List (String × Market))
    (o : GatewayInFlightOrder) (pr : Except String PlaceResponse)
    (orders : List GatewayInFlightOrder) (br : Except String BatchCreateResponse)
    (cr boc : Except String (Option String))
    (ids : Except String (List String)) (cth : Except String (Option String))
    (tk bal : List (String × Rat)) (cid : String) (s : OrderState)
    (hchk : check_markets_initialized st.markets = false)
    (hcid : o.client_order_id = some cid)
    (hact : lookupKey cid st.activeOrders = some s)
    (hs : s ≠ OrderState.CANCELED) :
    ((place_order st mres o pr).calls.head? = some GatewayCall.getClobMarkets
      ∧ (place_order st mres o pr).state.markets = some mres)
    ∧ ((batch_order_create st mres orders br).calls.head? = some GatewayCall.getClobMarkets
      ∧ (batch_order_create st mres orders br).state.markets = some mres)
    ∧ ((cancel_order st mres o cr).calls.head? = some GatewayCall.getClobMarkets
      ∧ (cancel_order st mres o cr).state.markets = some mres)
    ∧ ((batch_order_cancel st mres orders boc).calls.head? = some GatewayCall.getClobMarkets
      ∧ (batch_order_cancel st mres orders boc).state.markets = some mres)
    ∧ ((cancel_all_orders st mres ids cth).calls.head? = some GatewayCall.getClobMarkets
      ∧ (cancel_all_orders st mres ids cth).state.markets = some mres)
    ∧ GatewayCall.getClobMarkets ∉ (get_last_traded_price st tk).calls
    ∧ GatewayCall.getClobMarkets ∉ (get_account_balances st bal).calls := by
  refine ⟨?_, ?_, ?_, ?_, ?_, ?_, ?_⟩
  · simp only [place_order]
    exact withMarketsCheck_not_initialized st mres _ hchk
      (fun s0 => by repeat' split
                    all_goals rfl)
  · simp only [batch_order_create]
    exact withMarketsCheck_not_initialized st mres _ hchk
      (fun s0 => by repeat' split
                    all_goals rfl)
  · simp only [cancel_order, hcid, hact, if_neg hs]
    exact withMarketsCheck_not_initialized st mres _ hchk
      (fun s0 => by repeat' split
                    all_goals rfl)
  · simp only [batch_order_cancel]
    exact withMarketsCheck_not_initialized st mres _ hchk
      (fun s0 => by repeat' split
                    all_goals rfl)
  · simp only [cancel_all_orders]
    exact withMarketsCheck_not_initialized st mres _ hchk
      (fun s0 => by repeat' split
                    all_goals rfl)
  · simp [get_last_traded_price]
  · simp [get_account_balances]

/-- Claim C1 witness: the amended property evaluated with an unpopulated
cache, a tracked OPEN order and concrete Gateway responses. -/
theorem C1_market_check_gates_order_ops_witness :
    check_markets_initialized emptyCacheState.markets = false
    ∧ sampleOrder.client_order_id = some "c1"
    ∧ lookupKey "c1" emptyCacheState.activeOrders = some OrderState.OPEN
    ∧ OrderState.OPEN ≠ OrderState.CANCELED
    ∧ ((place_order emptyCacheState [("KUJI-USK", kujiMarket)] sampleOrder
          (Except.ok ⟨some "h", "1"⟩)).calls.head? = some GatewayCall.getClobMarkets
      ∧ (place_order emptyCacheState [("KUJI-USK", kujiMarket)] sampleOrder
          (Except.ok ⟨some "h", "1"⟩)).state.markets = some [("KUJI-USK", kujiMarket)]) :=
  ⟨rfl, rfl, rfl, by decide,
    (C1_market_check_gates_order_ops emptyCacheState [("KUJI-USK", kujiMarket)]
      sampleOrder (Except.ok ⟨some "h", "1"⟩) [sampleOrder]
      (Except.ok ⟨some "h", ["1"]⟩) (Except.ok (some "h")) (Except.ok (some "h"))
      (Except.ok ["1"]) (Except.ok (some "h")) [("KUJI-USK", 1)] [] "c1"
      OrderState.OPEN rfl rfl rfl (by decide)).1⟩

/-! ### Claim C2 -/

/-- An order whose client id happens to contain the venue's not-found marker
text (client ids are engine-generated opaque strings). -/
def markerOrder : GatewayInFlightOrder :=
  { sampleOrder with client_order_id := some ORDER_NOT_FOUND_MESSAGE }

/-- A populated state tracking `markerOrder` in OPEN state. -/
def markerTrackedState : ConnState :=
  { trackedState with activeOrders := [(ORDER_NOT_FOUND_MESSAGE, OrderState.OPEN)] }

/-- Claim C2 counterexample: a tracked, not-yet-CANCELED order for which the
venue responds successfully but with an EMPTY transaction hash — which the
claim says is a hard failure that propagates.  Because the invalid-hash
exception is raised inside the `try` block and its message embeds the
order's client id, an order whose client id contains the not-found marker
text makes the substring-matching `except` handler convert it into success
with the all-zero placeholder instead. -/
theorem C2_empty_hash_not_always_fatal_counterexample :
    lookupKey ORDER_NOT_FOUND_MESSAGE markerTrackedState.activeOrders
      = some OrderState.OPEN
    ∧ txHashEmpty (some "") = true
    ∧ (cancel_order markerTrackedState [] markerOrder (Except.ok (some ""))).result
      = Except.ok ⟨true, some ZERO_TX_HASH, OrderState.CANCELED⟩ :=
  ⟨rfl, rfl, rfl⟩

/-- Claim C2 (amended): for every tracked, not-yet-CANCELED order with a known
venue id and a populated market cache: a venue error whose text contains the
not-found marker yields success with the fixed all-zero placeholder hash and
the CANCELED state; a venue error without the marker propagates unchanged; an
empty/missing transaction hash raises the invalid-hash exception, which
propagates provided its message (which embeds the order's ids) does not
itself contain the marker; and a non-empty hash is success carrying it. -/
theorem C2_cancel_idempotency_rule
    (st : ConnState) (mres : List (String × Market))
    (order : GatewayInFlightOrder) (cid eid : String) (s : OrderState)
    (hchk : check_markets_initialized st.markets = true)
    (hcid : order.client_order_id = some cid)
    (hact : lookupKey cid st.activeOrders = some s)
    (hs : s ≠ OrderState.CANCELED)
    (heid : order.exchange_order_id = some eid) :
    (∀ m, substrB ORDER_NOT_FOUND_MESSAGE m = true →
      (cancel_order st mres order (Except.error m)).result
        = Except.ok ⟨true, some ZERO_TX_HASH, OrderState.CANCELED⟩)
    ∧ (∀ m, substrB ORDER_NOT_FOUND_MESSAGE m = false →
      (cancel_order st mres order (Except.error m)).result
        = Except.error (PyErr.exc m))
    ∧ (∀ th, txHashEmpty th = true →
        substrB ORDER_NOT_FOUND_MESSAGE
          (invalidCancelHashMessage (some cid) (some eid) th) = false →
      (cancel_order st mres order (Except.ok th)).result
        = Except.error (PyErr.exc (invalidCancelHashMessage (some cid) (some eid) th)))
    ∧ (∀ h, h ≠ "" →
      (cancel_order st mres order (Except.ok (some h))).result
        = Except.ok ⟨true, some h, OrderState.CANCELED⟩) := by
  have hw : ∀ (body : ConnState → StepOut CancelOut),
      withMarketsCheck st mres body = body st :=
    fun body => withMarketsCheck_initialized st mres body hchk
  refine ⟨?_, ?_, ?_, ?_⟩
  · intro m hm
    simp only [cancel_order, hcid, hact, if_neg hs, hw, heid]
    simp [hm]
  · intro m hm
    simp only [cancel_order, hcid, hact, if_neg hs, hw, heid]
    simp [hm]
  · intro th hth hsub
    simp only [cancel_order, hcid, hact, if_neg hs, hw, heid]
    simp [hth, hsub]
  · intro h hne
    simp only [cancel_order, hcid, hact, if_neg hs, hw, heid]
    simp [txHashEmpty, hne]

/-- Claim C2 witness: the amended property evaluated on a concrete tracked
OPEN order, with the venue raising exactly the not-found error text. -/
theorem C2_cancel_idempotency_rule_witness :
    check_markets_initialized trackedState.markets = true
    ∧ sampleOrder.client_order_id = some "c1"
    ∧ lookupKey "c1" trackedState.activeOrders = some OrderState.OPEN
    ∧ OrderState.OPEN ≠ OrderState.CANCELED
    ∧ sampleOrder.exchange_order_id = some "1"
    ∧ substrB ORDER_NOT_FOUND_MESSAGE ORDER_NOT_FOUND_MESSAGE = true
    ∧ (cancel_order trackedState [] sampleOrder
        (Except.error ORDER_NOT_FOUND_MESSAGE)).result
      = Except.ok ⟨true, some ZERO_TX_HASH, OrderState.CANCELED⟩ :=
  ⟨rfl, rfl, rfl, by decide, rfl, by decide,
    (C2_cancel_idempotency_rule trackedState [] sampleOrder "c1" "1" OrderState.OPEN
      rfl rfl rfl (by decide) rfl).1 ORDER_NOT_FOUND_MESSAGE (by decide)⟩

/-! ### Claim C3 -/

/-- Claim C3 counterexample: with a populated cache and ZERO open orders the
claim says cancel_all_orders succeeds trivially WITHOUT submitting any cancel
transaction; the code nevertheless submits a cancel-only batch transaction
(with an empty cancel list) after the open-orders poll. -/
theorem C3_cancel_all_always_submits_counterexample :
    (cancel_all_orders populatedState [] (Except.ok []) (Except.ok (some "h"))).calls
      = [GatewayCall.getClobOrderStatusUpdates none,
         GatewayCall.clobBatchOrderModify [] []]
    ∧ (cancel_all_orders populatedState [] (Except.ok []) (Except.ok (some "h"))).result
      = Except.ok [] :=
  ⟨rfl, rfl⟩

/-- Claim C3 (amended): `cancel_all_orders` polls the venue for the account's
open orders and ALWAYS submits a cancel-only batch carrying the polled venue
ids (also when that list is empty).  An empty/missing transaction hash is a
hard failure only when the open-order list is non-empty; a non-empty hash, or
an empty open-order list, is a success (returning the empty result list). -/
theorem C3_cancel_all_submits_batch_even_when_empty
    (st : ConnState) (mres : List (String × Market))
    (ids : List String) (th : Option String)
    (hchk : check_markets_initialized st.markets = true) :
    (cancel_all_orders st mres (Except.ok ids) (Except.ok th)).calls
      = [GatewayCall.getClobOrderStatusUpdates none,
         GatewayCall.clobBatchOrderModify [] ids]
    ∧ (txHashEmpty th = true → ids ≠ [] →
        (cancel_all_orders st mres (Except.ok ids) (Except.ok th)).result
          = Except.error (PyErr.runtimeError "Invalid transaction hash"))
    ∧ (txHashEmpty th = false →
        (cancel_all_orders st mres (Except.ok ids) (Except.ok th)).result
          = Except.ok [])
    ∧ (ids = [] →
        (cancel_all_orders st mres (Except.ok ids) (Except.ok th)).result
          = Except.ok []) := by
  have hw : ∀ (body : ConnState → StepOut (List Unit)),
      withMarketsCheck st mres body = body st :=
    fun body => withMarketsCheck_initialized st mres body hchk
  refine ⟨?_, ?_, ?_, ?_⟩
  · simp only [cancel_all_orders, hw]
    by_cases hh : (txHashEmpty th && !ids.isEmpty) = true <;> simp [hh]
  · intro h1 h2
    simp only [cancel_all_orders, hw]
    simp [h1, h2]
  · intro h1
    simp only [cancel_all_orders, hw]
    simp [h1]
  · intro h1
    subst h1
    simp only [cancel_all_orders, hw]
    simp

/-- Claim C3 witness: the amended property evaluated on a populated state
with one polled open order and a non-empty hash. -/
theorem C3_cancel_all_submits_batch_even_when_empty_witness :
    check_markets_initialized populatedState.markets = true
    ∧ (cancel_all_orders populatedState [] (Except.ok ["1"])
        (Except.ok (some "h"))).calls
      = [GatewayCall.getClobOrderStatusUpdates none,
         GatewayCall.clobBatchOrderModify [] ["1"]] :=
  ⟨rfl, (C3_cancel_all_submits_batch_even_when_empty populatedState [] ["1"]
    (some "h") rfl).1⟩

/-! ### Claim C4 -/

/-- Claim C4 counterexample: the status poll returns NO matching order record
(an empty `orders` list in the response); the claim says the call returns an
update carrying the order's current local state and does not raise, but
reading `orders[0]` raises `IndexError`. -/
theorem C4_empty_poll_raises_counterexample :
    lookupKey "c1" trackedState.activeOrders = some OrderState.OPEN
    ∧ (get_order_status_update trackedState sampleOrder (Except.ok [])).result
      = Except.error PyErr.indexError :=
  ⟨rfl, rfl⟩

/-- Claim C4 (amended): for every tracked, not-yet-CANCELED order with a known
venue id: when the status poll's first order record is present but falsy
(empty), `get_order_status_update` returns an update carrying the order's
current local state and does not raise; when the poll returns an EMPTY record
list, the `orders[0]` read raises `IndexError` instead. -/
theorem C4_status_fallback_on_falsy_record
    (st : ConnState) (order : GatewayInFlightOrder)
    (cid eid : String) (s : OrderState) (rest : List (Option VenueOrder))
    (hcid : order.client_order_id = some cid)
    (hact : lookupKey cid st.activeOrders = some s)
    (hs : s ≠ OrderState.CANCELED)
    (heid : order.exchange_order_id = some eid) :
    (get_order_status_update st order (Except.ok (none :: rest))).result
      = Except.ok (noUpdateFor order)
    ∧ (get_order_status_update st order (Except.ok [])).result
      = Except.error PyErr.indexError := by
  constructor
  · simp only [get_order_status_update, hcid, hact, if_neg hs, heid]
    simp [noUpdateFor]
  · simp only [get_order_status_update, hcid, hact, if_neg hs, heid]

/-- Claim C4 witness: the amended property evaluated on a concrete tracked
OPEN order with a falsy first poll record. -/
theorem C4_status_fallback_on_falsy_record_witness :
    sampleOrder.client_order_id = some "c1"
    ∧ lookupKey "c1" trackedState.activeOrders = some OrderState.OPEN
    ∧ OrderState.OPEN ≠ OrderState.CANCELED
    ∧ sampleOrder.exchange_order_id = some "1"
    ∧ (get_order_status_update trackedState sampleOrder
        (Except.ok [none])).result = Except.ok (noUpdateFor sampleOrder) :=
  ⟨rfl, rfl, by decide, rfl,
    (C4_status_fallback_on_falsy_record trackedState sampleOrder "c1" "1"
      OrderState.OPEN [] rfl rfl (by decide) rfl).1⟩

/-! ### Claim C5 -/

/-- Claim C5 counterexample: the claim says that in every case other than a
FILLED status poll, `get_all_order_fills` returns the empty list; but when
the poll returns NO order record (empty `orders` list) the `orders[0]` read
raises `IndexError` instead of returning `[]`. -/
theorem C5_empty_poll_raises_counterexample :
    sampleOrder.exchange_order_id = some "1"
    ∧ lookupKey "c1" trackedState.activeOrders = some OrderState.OPEN
    ∧ (get_all_order_fills trackedState sampleOrder (Except.ok []) 7).result
      = Except.error PyErr.indexError :=
  ⟨rfl, rfl, rfl⟩

/-- Claim C5 (amended): for every tracked, not-yet-CANCELED order with a known
venue id and a cached market: when the status poll's first record is truthy
and maps to FILLED, the call returns exactly one fill whose fill price/base
amount equal the order's price/size, whose quote amount is price × size, and
whose fee is the cached market's raw taker rate in the quote token; when the
first record is truthy but maps to a non-FILLED state, or is present but
falsy, it returns the empty list; when the poll returns an EMPTY record list,
it raises `IndexError`. -/
theorem C5_single_fill_iff_truthy_filled_record
    (st : ConnState) (order : GatewayInFlightOrder)
    (cid eid : String) (s : OrderState) (m : Market) (now : Nat)
    (rest : List (Option VenueOrder))
    (hcid : order.client_order_id = some cid)
    (hact : lookupKey cid st.activeOrders = some s)
    (hs : s ≠ OrderState.CANCELED)
    (heid : order.exchange_order_id = some eid)
    (hm : st.market = some m) :
    ((get_all_order_fills st order (Except.ok (some ⟨"FILLED"⟩ :: rest)) now).result
      = Except.ok
        [{ trade_id := toString now
           client_order_id := order.client_order_id
           exchange_order_id := some eid
           trading_pair := order.trading_pair
           fill_price := order.price
           fill_base_amount := order.amount
           fill_quote_amount := order.price * order.amount
           fee_amount := m.fees.taker
           fee_token := m.quoteToken.symbol }])
    ∧ (∀ (r : VenueOrder) (ns : OrderState),
        mapVenueState r.state = Except.ok ns → ns ≠ OrderState.FILLED →
        (get_all_order_fills st order (Except.ok (some r :: rest)) now).result
          = Except.ok [])
    ∧ ((get_all_order_fills st order (Except.ok (none :: rest)) now).result
        = Except.ok [])
    ∧ ((get_all_order_fills st order (Except.ok []) now).result
        = Except.error PyErr.indexError) := by
  refine ⟨?_, ?_, ?_, ?_⟩
  · simp only [get_all_order_fills, heid, hcid, hact, if_neg hs]
    simp [mapVenueState, KujiraOrderStatus.from_name, KujiraOrderStatus.to_hummingbot, hm]
  · intro r ns hns hne
    simp only [get_all_order_fills, heid, hcid, hact, if_neg hs, hns]
    simp [hne]
  · simp only [get_all_order_fills, heid, hcid, hact, if_neg hs]
    simp
  · simp only [get_all_order_fills, heid, hcid, hact, if_neg hs]

/-- Claim C5 witness: the amended property's FILLED branch evaluated on a
concrete tracked OPEN order with the cached KUJI/USK market. -/
theorem C5_single_fill_iff_truthy_filled_record_witness :
    sampleOrder.client_order_id = some "c1"
    ∧ lookupKey "c1" trackedState.activeOrders = some OrderState.OPEN
    ∧ OrderState.OPEN ≠ OrderState.CANCELED
    ∧ sampleOrder.exchange_order_id = some "1"
    ∧ trackedState.market = some kujiMarket
    ∧ (get_all_order_fills trackedState sampleOrder
        (Except.ok [some ⟨"FILLED"⟩]) 7).result
      = Except.ok
        [{ trade_id := toString 7
           client_order_id := sampleOrder.client_order_id
           exchange_order_id := some "1"
           trading_pair := sampleOrder.trading_pair
           fill_price := sampleOrder.price
           fill_base_amount := sampleOrder.amount
           fill_quote_amount := sampleOrder.price * sampleOrder.amount
           fee_amount := kujiMarket.fees.taker
           fee_token := kujiMarket.quoteToken.symbol }] :=
  ⟨rfl, rfl, by decide, rfl, rfl,
    (C5_single_fill_iff_truthy_filled_record trackedState sampleOrder "c1" "1"
      OrderState.OPEN kujiMarket 7 [] rfl rfl (by decide) rfl rfl).1⟩

/-! ### Claim C6 -/

/-- Positional contents of `((xs.map f).zip ys).map g` — the shape of the
result list built by `batch_order_create`. -/
theorem mapZipMap_getElem {A C D : Type} {B : Type} (f : A → B) (g : B × C → D) :
    ∀ (xs : List A) (ys : List C) (i : Nat) (x : A) (y : C),
      xs[i]? = some x → ys[i]? = some y →
      (((xs.map f).zip ys).map g)[i]? = some (g (f x, y))
  | [], _, _, _, _, hx, _ => by simp at hx
  | _ :: _, [], _, _, _, _, hy => by simp at hy
  | a :: as, b :: bs, 0, x, y, hx, hy => by
      simp at hx hy
      simp [hx, hy]
  | a :: as, b :: bs, (i + 1), x, y, hx, hy => by
      simp only [List.getElem?_cons_succ] at hx hy
      simpa using mapZipMap_getElem f g as bs i x y hx hy

/-- Claim C6 counterexample: a SUCCESSFUL `batch_order_create` call (non-empty
transaction hash) with one input order but an empty `ids` list in the venue
response returns ZERO results — `zip` truncates — refuting the claim that
every successful call returns one result per input order. -/
theorem C6_result_length_counterexample :
    txHashEmpty (some "h") = false
    ∧ (batch_order_create populatedState [] [sampleOrder]
        (Except.ok ⟨some "h", []⟩)).result = Except.ok []
    ∧ ([] : List PlaceOrderResult).length ≠ [sampleOrder].length :=
  ⟨rfl, rfl, by decide⟩

/-- Claim C6 (amended): for every successful `batch_order_create` call whose
response carries at least as many venue ids as there are input orders, the
result list has length equal to the input count, the i-th result pairs the
i-th input order (with its freshly generated client id) with the i-th
returned venue id, and every result carries the single returned transaction
hash; an empty or missing transaction hash fails the whole batch with no
results. -/
theorem C6_batch_create_results_positional
    (st : ConnState) (mres : List (String × Market))
    (orders : List GatewayInFlightOrder) (r : BatchCreateResponse)
    (hchk : check_markets_initialized st.markets = true) :
    (txHashEmpty r.txHash = true →
      (batch_order_create st mres orders (Except.ok r)).result
        = Except.error (PyErr.runtimeError "Invalid transaction hash"))
    ∧ (txHashEmpty r.txHash = false → orders.length ≤ r.ids.length →
        ∀ L, (batch_order_create st mres orders (Except.ok r)).result = Except.ok L →
          L.length = orders.length
          ∧ ∀ (i : Nat) (o : GatewayInFlightOrder) (eid : String),
              orders[i]? = some o → r.ids[i]? = some eid →
              L[i]? = some
                { client_order_id := some (generate_hash o)
                  exchange_order_id := some eid
                  trading_pair := o.trading_pair
                  creation_transaction_hash := r.txHash.getD "" }) := by
  have hw : ∀ (body : ConnState → StepOut (List PlaceOrderResult)),
      withMarketsCheck st mres body = body st :=
    fun body => withMarketsCheck_initialized st mres body hchk
  constructor
  · intro h1
    simp only [batch_order_create, hw]
    simp [h1]
  · intro h1 hlen L hres
    simp only [batch_order_create, hw] at hres
    simp [h1] at hres
    subst hres
    constructor
    · simp only [List.length_map, List.length_zip]
      omega
    · intro i o eid ho heid2
      have := mapZipMap_getElem
        (fun o => { o with client_order_id := some (generate_hash o) })
        (fun p => ({ client_order_id := p.1.client_order_id
                     exchange_order_id := some p.2
                     trading_pair := p.1.trading_pair
                     creation_transaction_hash := r.txHash.getD "" } : PlaceOrderResult))
        orders r.ids i o eid ho heid2
      simpa using this

/-- Claim C6 witness: the amended property evaluated on one input order and a
response carrying one venue id and a non-empty hash. -/
theorem C6_batch_create_results_positional_witness :
    check_markets_initialized populatedState.markets = true
    ∧ txHashEmpty (some "h") = false
    ∧ [sampleOrder].length ≤ (["1"] : List String).length
    ∧ ((batch_order_create populatedState [] [sampleOrder]
         (Except.ok ⟨some "h", ["1"]⟩)).result
        = Except.ok [{ client_order_id := some (generate_hash sampleOrder)
                       exchange_order_id := some "1"
                       trading_pair := sampleOrder.trading_pair
                       creation_transaction_hash := "h" }])
    ∧ ([{ client_order_id := some (generate_hash sampleOrder)
          exchange_order_id := some "1"
          trading_pair := sampleOrder.trading_pair
          creation_transaction_hash := "h" }] : List PlaceOrderResult).length
        = [sampleOrder].length :=
  ⟨rfl, rfl, by decide, rfl,
    ((C6_batch_create_results_positional populatedState [] [sampleOrder]
      ⟨some "h", ["1"]⟩ rfl).2 rfl (by decide) _ rfl).1⟩

/-! ### Claim C7 -/

/-- An order arriving at `batch_order_create` already carrying a client id. -/
def presetIdOrder : GatewayInFlightOrder :=
  { sampleOrder with client_order_id := some "abc" }

/-- Claim C7 counterexample: an input order that ALREADY carries client id
`"abc"`; the claim says such an order keeps its id, but the code overwrites
every order's client id with the generated hash unconditionally, and the
returned result carries the generated id, not `"abc"`. -/
theorem C7_preset_id_overwritten_counterexample :
    presetIdOrder.client_order_id = some "abc"
    ∧ (batch_order_create populatedState [] [presetIdOrder]
        (Except.ok ⟨some "h", ["1"]⟩)).result
      = Except.ok [{ client_order_id := some (generate_hash presetIdOrder)
                     exchange_order_id := some "1"
                     trading_pair := presetIdOrder.trading_pair
                     creation_transaction_hash := "h" }]
    ∧ generate_hash presetIdOrder ≠ "abc" :=
  ⟨rfl, rfl, by decide⟩

/-- Claim C7 (amended): `batch_order_create` assigns the generated client id
(the deterministic hash of the order's attributes) to EVERY input order,
overwriting any client id the order already carries: the candidate list sent
to the Gateway carries the generated id for each input, whether or not that
input already had a client id. -/
theorem C7_client_ids_always_regenerated
    (st : ConnState) (mres : List (String × Market))
    (orders : List GatewayInFlightOrder) (resp : Except String BatchCreateResponse)
    (hchk : check_markets_initialized st.markets = true) :
    (batch_order_create st mres orders resp).calls.head? =
      some (GatewayCall.clobBatchOrderModify
        (CandidateEntry.moduleSentinel :: orders.map (fun o =>
          CandidateEntry.candidate
            { amount := o.amount
              client_order_id := some (generate_hash o)
              creation_timestamp := 0
              order_type := o.order_type
              trade_type := o.trade_type
              trading_pair := st.tradingPair })) []) := by
  have hw : ∀ (body : ConnState → StepOut (List PlaceOrderResult)),
      withMarketsCheck st mres body = body st :=
    fun body => withMarketsCheck_initialized st mres body hchk
  simp only [batch_order_create, hw, batchCreateCandidates, mkCandidateOrder]
  rcases resp with m | r
  · simp
  · by_cases hh : txHashEmpty r.txHash = true <;> simp [hh]

/-- Claim C7 witness: the amended property evaluated on a single input order
that already carries client id `"abc"`. -/
theorem C7_client_ids_always_regenerated_witness :
    check_markets_initialized populatedState.markets = true
    ∧ (batch_order_create populatedState [] [presetIdOrder]
        (Except.ok ⟨some "h", ["1"]⟩)).calls.head? =
      some (GatewayCall.clobBatchOrderModify
        (CandidateEntry.moduleSentinel :: [presetIdOrder].map (fun o =>
          CandidateEntry.candidate
            { amount := o.amount
              client_order_id := some (generate_hash o)
              creation_timestamp := 0
              order_type := o.order_type
              trade_type := o.trade_type
              trading_pair := populatedState.tradingPair })) []) :=
  ⟨rfl, C7_client_ids_always_regenerated populatedState [] [presetIdOrder]
    (Except.ok ⟨some "h", ["1"]⟩) rfl⟩
